import Mathlib

/-!
Verification of the generic CRUD repository of shopAPI
(`src/shopAPI/crud.py`, `BaseCRUD`) and its entity model
(`src/shopAPI/models.py`).

The Python code is shallowly embedded: the database is an explicit state
(lists of rows), every CRUD operation is a pure function from that state,
and fallible operations return `Except`.  UUIDs are modelled as `Nat`,
Python attribute values as the inductive `PyValue`, and a pydantic schema
with its explicitly-set fields (`exclude_unset`) as an association list.

Parts of the repository that are outside the two given source files
(`shopAPI/database.py` with `Transactional` and `IdMixin`, and the
per-entity `_join_...` methods living on the `BaseCRUD` subclasses) are
modelled from the spec and marked as such in their doc comments.
-/

namespace ShopAPI

/-- Model of a Python attribute value as stored on an entity: `None`,
an integer, a string, or a UUID (UUIDs are modelled as naturals). -/
inductive PyValue where
  | vNone
  | vInt (i : Int)
  | vStr (s : String)
  | vUuid (u : Nat)
  deriving DecidableEq, Repr

/-- Error conditions raised by `BaseCRUD` (crud.py), using the spec's
taxonomy: `invalidInput` is the `TypeError("join_ must be a set")` of
`_optional_join`; `unsupportedRelationship` is the `AttributeError`
raised by `getattr(self, "_join_" + join_)` in `_add_join_to_query`
when no join method is registered; `notFound` is the
`HTTPException(404)` of `get_by_id`; `multipleResultsFound` is
sqlalchemy's `MultipleResultsFound` raised by `one_or_none` when the
executed query yields more than one row. -/
inductive CrudError where
  | invalidInput
  | unsupportedRelationship
  | notFound
  | multipleResultsFound
  deriving DecidableEq, Repr

/-- A persisted entity of the current model class: its primary-key id
(`None` until assigned) and its remaining attributes as an association
list from attribute name to value. -/
structure Entity where
  id : Option Nat
  attrs : List (String × PyValue)
  deriving DecidableEq, Repr

/-- Python `getattr` on an entity: the `id` attribute is the primary
key; any other attribute is looked up in the attribute list (absent
attributes read as `None`, which is all the embedding needs). -/
def pyGetattr (e : Entity) (field : String) : PyValue :=
  if field = "id" then
    match e.id with
    | some u => .vUuid u
    | none => .vNone
  else
    match e.attrs.lookup field with
    | some v => v
    | none => .vNone

/-- Model of the `join_` argument of `get_by` / `_optional_join` as the
Python values a caller can pass: `None`, a set of strings (iteration
order irrelevant, modelled as a list), a plain string, or a list of
strings.  Only the set shape is accepted by `_optional_join` once the
argument is truthy. -/
inductive JoinArg where
  | none
  | set (names : List String)
  | str (s : String)
  | list (names : List String)
  deriving DecidableEq, Repr

/-- Python falsiness of a `join_` argument: `None` is falsy, and a set,
string or list is falsy exactly when it is empty.  This is the `if not
join_` test at the top of `_optional_join`. -/
def JoinArg.falsy : JoinArg → Bool
  | .none => true
  | .set names => names.isEmpty
  | .str s => s.isEmpty
  | .list names => names.isEmpty

/-- Python `isinstance(join_, set)`. -/
def JoinArg.isSet : JoinArg → Bool
  | .set _ => true
  | _ => false

/-- A select statement under construction: the optional `where` filter
added by `_get_by`, and the relationship names whose eager-load options
have been applied by `_add_join_to_query`. -/
structure Query where
  filterField : Option (String × PyValue)
  joins : List String
  deriving DecidableEq, Repr

/-- The bare `select(self.model_class)` statement. -/
def selectModel : Query := { filterField := Option.none, joins := [] }

/-- Modelled from the spec: the registered join-application methods
(`_join_<name>` on the `BaseCRUD` subclasses) are not part of the given
source files; the spec describes them as a per-entity-kind registry
mapping a relationship name to a query-shaping eager load.  The
registry is modelled as the list of relationship names for which a
`_join_<name>` method exists. -/
abbrev JoinRegistry := List String

/-- Translation of `BaseCRUD._add_join_to_query`: dispatch on
`getattr(self, "_join_" + join_)`.  A registered name applies its eager
load to the query; a name with no registered join method raises
`AttributeError`, the Unsupported-Relationship condition. -/
def _add_join_to_query (reg : JoinRegistry) (q : Query) (name : String) :
    Except CrudError Query :=
  if reg.contains name then .ok { q with joins := q.joins ++ [name] }
  else .error .unsupportedRelationship

/-- Translation of `BaseCRUD._optional_join`: a falsy `join_` returns
the query unchanged; a truthy non-set raises
`TypeError("join_ must be a set")`; a truthy set is folded over with
`_add_join_to_query` (Python's `reduce`). -/
def _optional_join (reg : JoinRegistry) (q : Query) (j : JoinArg) :
    Except CrudError Query :=
  if j.falsy then .ok q
  else
    match j with
    | .set names => names.foldlM (_add_join_to_query reg) q
    | _ => .error .invalidInput

/-- Translation of `BaseCRUD._query`: `select(model_class)` followed by
`_optional_join`. -/
def _query (reg : JoinRegistry) (j : JoinArg) : Except CrudError Query :=
  _optional_join reg selectModel j

/-- Translation of `BaseCRUD._get_by`:
`query.where(getattr(model_class, field) == value)`. -/
def _get_by (q : Query) (field : String) (value : PyValue) : Query :=
  { q with filterField := some (field, value) }

/-- The store state seen by one repository: the rows of the current
model class's table, together with the fan-out of the eagerly-loaded
one-to-many relationship (how many child rows join to a given parent
id).  Modelled from the spec: "a join to a one-to-many relationship can
fan out rows"; a joined parent appears once per child row, and at least
once (LEFT OUTER join), while a join-free query yields each matching
row exactly once. -/
structure GenericDB where
  rows : List Entity
  children : Option Nat → Nat

/-- Evaluation of the `where` clause of a query on one row. -/
def matchesFilter (f : Option (String × PyValue)) (e : Entity) : Bool :=
  match f with
  | Option.none => true
  | some (field, v) => pyGetattr e field == v

/-- Number of result rows contributed by one matching parent row: one
for a join-free query, and one per joined child row (at least one, the
eager load being a LEFT OUTER join) when an eager load was applied. -/
def fanout (db : GenericDB) (q : Query) (e : Entity) : Nat :=
  if q.joins.isEmpty then 1 else max 1 (db.children e.id)

/-- Execution of a query against the store: the scalar entities of the
result rows, in table order, each matching parent repeated once per
result row it appears in. -/
def executeRows (db : GenericDB) (q : Query) : List Entity :=
  (db.rows.filter (matchesFilter q.filterField)).flatMap
    fun e => List.replicate (fanout db q e) e

/-- Translation of `BaseCRUD._all`: `session.scalars(query).all()`. -/
def _all (rows : List Entity) : List Entity := rows

/-- Helper for `_all_unique`: drop every row already seen, keeping
first occurrences (sqlalchemy's `Result.unique()` dedups by the
identity of the entity, and identity-mapped duplicates are equal). -/
def _all_unique_aux (seen : List Entity) : List Entity → List Entity
  | [] => []
  | x :: xs =>
    if seen.contains x then _all_unique_aux seen xs
    else x :: _all_unique_aux (x :: seen) xs

/-- Translation of `BaseCRUD._all_unique`:
`session.execute(query).unique().scalars().all()`. -/
def _all_unique (rows : List Entity) : List Entity := _all_unique_aux [] rows

/-- Translation of `BaseCRUD._one_or_none`:
`session.scalars(query).one_or_none()` — `None` on zero rows, the row
on exactly one, and sqlalchemy's `MultipleResultsFound` on two or
more. -/
def _one_or_none (rows : List Entity) : Except CrudError (Option Entity) :=
  match rows with
  | [] => .ok Option.none
  | [x] => .ok (some x)
  | _ :: _ :: _ => .error .multipleResultsFound

/-- The dynamically-typed return value of `get_by`: `one_or_none`
returns an optional entity, the other two paths return a list. -/
inductive GetByResult where
  | one (x : Option Entity)
  | many (xs : List Entity)
  deriving DecidableEq, Repr

/-- Entities actually returned to the caller by a `get_by` result
(an error returns none). -/
def returnedEntities : Except CrudError GetByResult → List Entity
  | .ok (.one (some x)) => [x]
  | .ok (.one Option.none) => []
  | .ok (.many xs) => xs
  | .error _ => []

/-- True exactly on a successful result. -/
def exceptOk : Except CrudError GetByResult → Bool
  | .ok _ => true
  | .error _ => false

/-- True exactly on a successful list-shaped result. -/
def isOkMany : Except CrudError GetByResult → Bool
  | .ok (.many _) => true
  | _ => false

/-- Translation of `BaseCRUD.get_by`: build the query (`_query`, then
`_get_by`), execute it, and dispatch on the flags — `unique` goes
through `_one_or_none`, otherwise `join_ is not None` goes through
`_all_unique` and a `None` join argument through `_all`. -/
def get_by (reg : JoinRegistry) (db : GenericDB) (field : String)
    (value : PyValue) (j : JoinArg) (unique : Bool) :
    Except CrudError GetByResult :=
  match _query reg j with
  | .error e => .error e
  | .ok q =>
    let rows := executeRows db (_get_by q field value)
    if unique then
      match _one_or_none rows with
      | .error e => .error e
      | .ok x => .ok (.one x)
    else
      match j with
      | JoinArg.none => .ok (.many (_all rows))
      | _ => .ok (.many (_all_unique rows))

/-- Python truthiness of a `get_by` result, as tested by
`if not db_obj` in `get_by_id`: `None` is falsy, an entity object is
truthy (SQLModel entities define no `__bool__`), a list is truthy
exactly when non-empty. -/
def pyTruthy : GetByResult → Bool
  | .one (some _) => true
  | .one Option.none => false
  | .many xs => !xs.isEmpty

/-- Translation of `BaseCRUD.get_by_id`:
`get_by(field="id", value=id, join_=join_, unique=True)`, then
`HTTPException(404)` when the result is falsy. -/
def get_by_id (reg : JoinRegistry) (db : GenericDB) (idv : Nat)
    (j : JoinArg) : Except CrudError GetByResult :=
  match get_by reg db "id" (.vUuid idv) j true with
  | .error e => .error e
  | .ok r => if pyTruthy r then .ok r else .error .notFound

/-- Translation of `BaseCRUD.get_all`:
`_all(_query().offset(offset).limit(limit))` — a page of rows with no
joins and store order. -/
def get_all (db : GenericDB) (offset limit : Nat) : List Entity :=
  _all ((db.rows.drop offset).take limit)

/-- A pydantic schema instance as the Attribute Extractor sees it: the
association list of the fields the caller explicitly set (pydantic's
`exclude_unset=True` view).  Field names are unique in a pydantic
model, which theorems assume as a `Nodup` hypothesis. -/
structure Schema where
  setFields : List (String × PyValue)
  deriving DecidableEq, Repr

/-- Translation of `BaseCRUD.extract_attributes_from_schema`:
`schema.model_dump(exclude=excludes, exclude_unset=True)` — the
explicitly-set fields, minus the excluded names (`excludes` defaults to
`None`, i.e. no exclusion). -/
def extract_attributes_from_schema (schema : Schema)
    (excludes : Option (List String)) : List (String × PyValue) :=
  match excludes with
  | Option.none => schema.setFields
  | some ex => schema.setFields.filter fun p => !ex.contains p.1

/-- An entity kind as the generic repository is parameterized by it:
the declared attribute names of the model class (not including the
`IdMixin` id) and the default value of each. -/
structure EntityKind where
  fieldNames : List String
  defaults : String → PyValue

/-- The `self.model_class(**attributes)` constructor call of `create`:
every declared field takes the supplied attribute value when one was
supplied and its default otherwise.  Modelled from the spec for the id
part: `IdMixin` (shopAPI/database.py, not among the given sources)
generates a fresh UUID primary key at creation, modelled by the
`freshId` parameter. -/
def modelInit (k : EntityKind) (attributes : List (String × PyValue))
    (freshId : Nat) : Entity :=
  { id := some freshId,
    attrs := k.fieldNames.map fun f =>
      (f, match attributes.lookup f with
          | some v => v
          | Option.none => k.defaults f) }

/-- Translation of `BaseCRUD.create`: extract the explicitly-set
attributes, construct `model_class(**attributes)` and add it to the
session.  Modelled from the spec for the transaction part:
`@Transactional()` (shopAPI/database.py, not among the given sources)
commits the session on success, so the call is one atomic state
transition whose post-state already contains the new row. -/
def create (k : EntityKind) (db : GenericDB) (model_create : Schema)
    (freshId : Nat) : Entity × GenericDB :=
  let attributes := extract_attributes_from_schema model_create Option.none
  let model := modelInit k attributes freshId
  (model, { db with rows := db.rows ++ [model] })

/-- Python `setattr(model, k, v)` on an entity: overwrite the attribute
when present, append it otherwise. -/
def setattrEntity (e : Entity) (field : String) (v : PyValue) : Entity :=
  if (e.attrs.lookup field).isSome then
    { e with attrs := e.attrs.map fun p => if p.1 = field then (field, v) else p }
  else
    { e with attrs := e.attrs ++ [(field, v)] }

/-- Translation of `BaseCRUD.update`: extract the explicitly-set
attributes of the patch and `setattr` each onto the existing model,
returning it (the commit of `@Transactional()` is again one atomic
transition). -/
def update (model : Entity) (model_update : Schema) : Entity :=
  (extract_attributes_from_schema model_update Option.none).foldl
    (fun m p => setattrEntity m p.1 p.2) model

/-- Translation of `OrderStatus` (models.py): the status enumeration,
default `created`. -/
inductive OrderStatus where
  | created
  | processing
  | shipped
  | delivered
  | canceled
  deriving DecidableEq, Repr

/-- Translation of the `Product` table (models.py): id from `IdMixin`,
plus name, description, price and amount.  The float `price` plays no
role in any claim and is kept as `Float` only for shape. -/
structure Product where
  id : Nat
  name : String
  description : String
  price : Float
  amount : Int
  deriving Repr

/-- Translation of the `Order` table (models.py): id from `IdMixin`,
`creation_date` (timestamp modelled as `Nat`) and `status`. -/
structure Order where
  id : Nat
  creation_date : Nat
  status : OrderStatus
  deriving DecidableEq, Repr

/-- Translation of the `OrderItem` table (models.py): id from
`IdMixin`, `amount`, and the two foreign keys `order_id` and
`product_id`, both declared `UUID | None` in the source, hence
`Option` here. -/
structure OrderItem where
  id : Nat
  amount : Int
  order_id : Option Nat
  product_id : Option Nat
  deriving DecidableEq, Repr

/-- The relational store of the three tables. -/
structure ShopDB where
  products : List Product
  orders : List Order
  order_items : List OrderItem

/-- Translation of `BaseCRUD.delete` applied to an `Order`:
`session.delete(model)` inside `@Transactional()`.  The
`cascade="all"` of `Order.order_items` (models.py) makes the delete
cascade to every `OrderItem` of the order, in the same transaction —
one atomic state transition.  Products are not touched. -/
def delete_order (db : ShopDB) (o : Order) : ShopDB :=
  { db with
    orders := db.orders.filter fun x => x.id != o.id,
    order_items := db.order_items.filter fun it => it.order_id != some o.id }

/-- Translation of `BaseCRUD.delete` applied to a `Product`: no delete
cascade is configured on `Product.order_items` (models.py), so only the
product row is removed. -/
def delete_product (db : ShopDB) (p : Product) : ShopDB :=
  { db with products := db.products.filter fun x => x.id != p.id }

/-- Translation of `BaseCRUD.delete` applied to an `OrderItem`: only
the targeted row is removed. -/
def delete_order_item (db : ShopDB) (it : OrderItem) : ShopDB :=
  { db with order_items := db.order_items.filter fun x => x.id != it.id }

/-- Translation of `select(Product).where(Product.id == pid)` with
`one_or_none`, i.e. retrieving a product by id. -/
def getProductById (db : ShopDB) (pid : Nat) : Option Product :=
  db.products.find? fun p => p.id == pid

/-- A nullable foreign-key column as an attribute value. -/
def optUuid : Option Nat → PyValue
  | some u => .vUuid u
  | Option.none => .vNone

/-- View of an `OrderItem` row as a generic entity of the `OrderItem`
repository, exposing its columns to `get_by` filters. -/
def OrderItem.toEntity (it : OrderItem) : Entity :=
  { id := some it.id,
    attrs := [("amount", .vInt it.amount),
              ("order_id", optUuid it.order_id),
              ("product_id", optUuid it.product_id)] }

/-- The `OrderItem` table of a shop store as the generic store a
`BaseCRUD[OrderItem]` repository queries (no eager load requested, so
the fan-out function is irrelevant). -/
def orderItemDB (db : ShopDB) : GenericDB :=
  { rows := db.order_items.map OrderItem.toEntity, children := fun _ => 0 }

/-- A storage-level failure: the store rejecting a write. -/
inductive StorageError where
  | foreignKeyViolation
  deriving DecidableEq, Repr

/-- The foreign-key constraints declared on `OrderItem` (models.py):
`foreign_key="order.id"` and `foreign_key="product.id"` on nullable
columns — a NULL reference passes, a non-NULL reference must name an
existing row. -/
def fkOk (db : ShopDB) (it : OrderItem) : Bool :=
  (match it.order_id with
   | some oid => db.orders.any fun o => o.id == oid
   | Option.none => true)
  &&
  (match it.product_id with
   | some pid => db.products.any fun p => p.id == pid
   | Option.none => true)

/-- Persisting an `OrderItem` row: the store accepts the insert exactly
when the declared foreign-key constraints hold, and rejects it with a
constraint violation otherwise (a storage failure that rolls the
transaction back). -/
def insertOrderItem (db : ShopDB) (it : OrderItem) :
    Except StorageError ShopDB :=
  if fkOk db it then .ok { db with order_items := db.order_items ++ [it] }
  else .error .foreignKeyViolation

/-- Order items of the store produced by a successful insert (an error
produces none). -/
def orderItemsAfter : Except StorageError ShopDB → List OrderItem
  | .ok db => db.order_items
  | .error _ => []

/-- A `join_` argument the join resolver accepts without failing:
either falsy (treated as "no joins") or a set whose every name has a
registered join method. -/
def validJoin (reg : JoinRegistry) (j : JoinArg) : Bool :=
  j.falsy ||
  (match j with
   | .set names => names.all fun n => reg.contains n
   | _ => false)

/-- Relationship names a valid `join_` argument makes the resolver
apply: the names of a truthy set, nothing otherwise. -/
def joinNames : JoinArg → List String
  | .set names => names
  | _ => []

/-- An empty store (fixture for concrete evaluations). -/
def dbEmpty : GenericDB := { rows := [], children := fun _ => 0 }

/-- A one-row entity (fixture). -/
def entParent : Entity :=
  { id := some 1, attrs := [("status", .vStr "created")] }

/-- A store holding `entParent` whose eager-loaded one-to-many
relationship fans out to three child rows (fixture). -/
def dbFan : GenericDB := { rows := [entParent], children := fun _ => 3 }

/-- The join registry of an order repository, which registers
`_join_order_items` (fixture). -/
def regOrder : JoinRegistry := ["order_items"]

/-- The product entity kind (fixture): field names of `ProductBase`,
defaults modelled as absent values. -/
def prodKind : EntityKind :=
  { fieldNames := ["name", "description", "price", "amount"],
    defaults := fun _ => .vNone }

/-- A product-creation payload setting two fields (fixture). -/
def prodPayload : Schema :=
  { setFields := [("name", .vStr "Widget"), ("amount", .vInt 5)] }

/-- An order entity as a generic row (fixture). -/
def entOrder : Entity :=
  { id := some 7,
    attrs := [("creation_date", .vInt 20240101), ("status", .vStr "created")] }

/-- A status patch with one explicitly-set field (fixture). -/
def patchStatus : Schema := { setFields := [("status", .vStr "shipped")] }

/-- An empty shop store (fixture). -/
def emptyShopDB : ShopDB := { products := [], orders := [], order_items := [] }

/-- An order item with both foreign keys NULL (fixture): legal for the
declared `UUID | None` columns. -/
def nullOrderItem : OrderItem :=
  { id := 1, amount := 1, order_id := Option.none, product_id := Option.none }

/-- A shop store holding one order (fixture). -/
def oneOrderShopDB : ShopDB :=
  { products := [],
    orders := [{ id := 5, creation_date := 0, status := .created }],
    order_items := [] }

/-- An order item referencing the order of `oneOrderShopDB` (fixture). -/
def itemForOrder5 : OrderItem :=
  { id := 9, amount := 2, order_id := some 5, product_id := Option.none }

/-- True exactly when the store accepted the insert of an order
item. -/
def insertOk (db : ShopDB) (it : OrderItem) : Bool :=
  match insertOrderItem db it with
  | .ok _ => true
  | .error _ => false

/-- Folding registered names over `_add_join_to_query` succeeds and
accumulates exactly those joins. -/
lemma foldlM_add_join_ok (reg : JoinRegistry) (names : List String) :
    ∀ q : Query, (names.all fun n => reg.contains n) = true →
      names.foldlM (_add_join_to_query reg) q =
        .ok { q with joins := q.joins ++ names } := by
  induction names with
  | nil =>
    intro q _
    show pure q = Except.ok { q with joins := q.joins ++ [] }
    rw [List.append_nil]
    rfl
  | cons n t ih =>
    intro q hall
    simp only [List.all_cons, Bool.and_eq_true] at hall
    have hn : n ∈ reg := by simpa using hall.1
    have hstep : _add_join_to_query reg q n = .ok { q with joins := q.joins ++ [n] } := by
      simp [_add_join_to_query, hn]
    rw [List.foldlM_cons, hstep]
    show List.foldlM (_add_join_to_query reg) { q with joins := q.joins ++ [n] } t =
      Except.ok { q with joins := q.joins ++ (n :: t) }
    rw [ih _ hall.2]
    simp

/-- The join resolver accepts a valid `join_` argument and applies
exactly its names. -/
lemma optional_join_valid (reg : JoinRegistry) (q : Query) (j : JoinArg)
    (h : validJoin reg j = true) :
    _optional_join reg q j = .ok { q with joins := q.joins ++ joinNames j } := by
  cases j with
  | none => simp [_optional_join, JoinArg.falsy, joinNames]
  | set names =>
    by_cases hf : names.isEmpty
    · have hnil : names = [] := List.isEmpty_iff.mp hf
      subst hnil
      simp [_optional_join, JoinArg.falsy, joinNames]
    · have hall : (names.all fun n => reg.contains n) = true := by
        simp only [validJoin, JoinArg.falsy, hf, Bool.false_or] at h
        exact h
      have hfalse : JoinArg.falsy (.set names) = false := by
        simp [JoinArg.falsy, hf]
      simp only [_optional_join, hfalse, Bool.false_eq_true, if_false]
      rw [foldlM_add_join_ok reg names q hall]
      rfl
  | str s =>
    have hs : s.isEmpty = true := by
      simpa [validJoin, JoinArg.falsy] using h
    simp [_optional_join, JoinArg.falsy, hs, joinNames]
  | list names =>
    have hs : names.isEmpty = true := by
      simpa [validJoin, JoinArg.falsy] using h
    simp [_optional_join, JoinArg.falsy, hs, joinNames]

/-- `_query` on a valid `join_` argument yields the join-expanded
select with no filter yet. -/
lemma query_valid (reg : JoinRegistry) (j : JoinArg)
    (h : validJoin reg j = true) :
    _query reg j = .ok { filterField := Option.none, joins := joinNames j } := by
  rw [_query, optional_join_valid reg selectModel j h]
  rfl

/-- A query whose filter matches no row returns no rows. -/
lemma executeRows_filter_empty (db : GenericDB) (q : Query)
    (h : db.rows.filter (matchesFilter q.filterField) = []) :
    executeRows db q = [] := by
  simp [executeRows, h]

/-- A join-free query returns exactly the matching rows. -/
lemma executeRows_no_join (db : GenericDB) (q : Query) (h : q.joins = []) :
    executeRows db q = db.rows.filter (matchesFilter q.filterField) := by
  simp [executeRows, fanout, h]

/-- Evaluation of `get_by(..., unique=True)` once the `join_` argument
is known valid: the built query runs through `_one_or_none`. -/
lemma get_by_unique_eq (reg : JoinRegistry) (db : GenericDB) (field : String)
    (value : PyValue) (j : JoinArg) (h : validJoin reg j = true) :
    get_by reg db field value j true =
      (match _one_or_none (executeRows db
          { filterField := some (field, value), joins := joinNames j }) with
       | .error e => .error e
       | .ok x => .ok (.one x)) := by
  rw [get_by, query_valid reg j h]
  rfl

/-- Evaluation of `get_by(..., unique=False)` with a set of registered
relationship names: the built query runs through `_all_unique`. -/
lemma get_by_set_eq (reg : JoinRegistry) (db : GenericDB) (field : String)
    (value : PyValue) (names : List String)
    (h : validJoin reg (.set names) = true) :
    get_by reg db field value (.set names) false =
      .ok (.many (_all_unique (executeRows db
        { filterField := some (field, value), joins := names }))) := by
  rw [get_by, query_valid reg (.set names) h]
  rfl

/-- Evaluation of `get_by(..., join_=None, unique=False)`: the plain
`_all` path on the join-free query. -/
lemma get_by_none_eq (reg : JoinRegistry) (db : GenericDB) (field : String)
    (value : PyValue) :
    get_by reg db field value JoinArg.none false =
      .ok (.many (db.rows.filter
        (matchesFilter (some (field, value))))) := by
  rw [get_by, query_valid reg JoinArg.none rfl]
  show Except.ok (GetByResult.many (_all (executeRows db
      { filterField := some (field, value), joins := joinNames JoinArg.none }))) = _
  rw [_all, executeRows_no_join _ _ rfl]

/-- Evaluation of `get_by(..., unique=False)` on a falsy `join_`
argument other than `None`: no join is applied, yet the result still
goes through the deduplicating `_all_unique` path. -/
lemma get_by_falsy_notnone_eq (reg : JoinRegistry) (db : GenericDB)
    (field : String) (value : PyValue) (j : JoinArg)
    (hfalsy : j.falsy = true) (hnn : j ≠ JoinArg.none) :
    get_by reg db field value j false =
      .ok (.many (_all_unique (db.rows.filter
        (matchesFilter (some (field, value)))))) := by
  have hv : validJoin reg j = true := by
    simp [validJoin, hfalsy]
  have hjn : joinNames j = [] := by
    cases j with
    | none => rfl
    | set names =>
      have : names = [] := List.isEmpty_iff.mp hfalsy
      simp [joinNames, this]
    | str s => rfl
    | list names => rfl
  cases j with
  | none => exact absurd rfl hnn
  | set names =>
    rw [get_by, query_valid reg (.set names) hv]
    show Except.ok (GetByResult.many (_all_unique (executeRows db
        { filterField := some (field, value), joins := joinNames (.set names) }))) = _
    rw [executeRows_no_join _ _ (by rw [hjn])]
  | str s =>
    rw [get_by, query_valid reg (.str s) hv]
    show Except.ok (GetByResult.many (_all_unique (executeRows db
        { filterField := some (field, value), joins := joinNames (.str s) }))) = _
    rw [executeRows_no_join _ _ rfl]
  | list names =>
    rw [get_by, query_valid reg (.list names) hv]
    show Except.ok (GetByResult.many (_all_unique (executeRows db
        { filterField := some (field, value), joins := joinNames (.list names) }))) = _
    rw [executeRows_no_join _ _ rfl]

/-- Rows produced by `_all_unique_aux` avoid the seen set and are
pairwise distinct. -/
lemma all_unique_aux_spec (rows : List Entity) :
    ∀ seen : List Entity,
      (∀ x ∈ _all_unique_aux seen rows, x ∉ seen) ∧
        (_all_unique_aux seen rows).Nodup := by
  induction rows with
  | nil => intro seen; simp [_all_unique_aux]
  | cons r rs ih =>
    intro seen
    by_cases hc : seen.contains r = true
    · rw [_all_unique_aux, if_pos hc]
      exact ih seen
    · have hrs : r ∉ seen := fun hmem => hc (by simp [hmem])
      rw [_all_unique_aux, if_neg hc]
      constructor
      · intro x hx
        rcases List.mem_cons.mp hx with rfl | hx2
        · exact hrs
        · have hnot := (ih (r :: seen)).1 x hx2
          intro hmem
          exact hnot (List.mem_cons_of_mem r hmem)
      · refine List.nodup_cons.mpr ⟨?_, (ih (r :: seen)).2⟩
        intro hr
        exact (ih (r :: seen)).1 r hr (List.mem_cons_self r seen)

/-- The deduplicating execution path returns pairwise distinct
entities. -/
lemma all_unique_nodup (rows : List Entity) : (_all_unique rows).Nodup :=
  (all_unique_aux_spec rows []).2

/-- Looking up a key absent from an association list yields nothing. -/
lemma lookup_eq_none_of_not_mem (l : List (String × PyValue)) (f : String)
    (h : f ∉ l.map Prod.fst) : l.lookup f = Option.none := by
  induction l with
  | nil => rfl
  | cons p t ih =>
    obtain ⟨k, w⟩ := p
    simp only [List.map_cons, List.mem_cons] at h
    push_neg at h
    have hbeq : (f == k) = false := by
      simp [h.1]
    simp [List.lookup, hbeq, ih h.2]

/-- Looking up a present key of an association list with distinct keys
yields its value. -/
lemma lookup_eq_some_of_mem (l : List (String × PyValue)) (f : String)
    (v : PyValue) (hnd : (l.map Prod.fst).Nodup) (hmem : (f, v) ∈ l) :
    l.lookup f = some v := by
  induction l with
  | nil => simp at hmem
  | cons p t ih =>
    obtain ⟨k, w⟩ := p
    simp only [List.map_cons, List.nodup_cons] at hnd
    rcases List.mem_cons.mp hmem with heq | hmem2
    · obtain ⟨rfl, rfl⟩ := Prod.mk.injEq f v k w ▸ heq
      simp [List.lookup]
    · have hne : f ≠ k := by
        intro hfk
        subst hfk
        exact hnd.1 (List.mem_map_of_mem Prod.fst hmem2)
      have hbeq : (f == k) = false := by simp [hne]
      simp [List.lookup, hbeq, ih hnd.2 hmem2]

/-- Lookup in an association list built from a list of keys by pairing
each with a computed value. -/
lemma lookup_map_key (l : List String) (g : String → PyValue) (f : String) :
    (l.map fun x => (x, g x)).lookup f =
      if f ∈ l then some (g f) else Option.none := by
  induction l with
  | nil => simp [List.lookup]
  | cons x t ih =>
    by_cases hx : f = x
    · subst hx
      simp [List.lookup]
    · have hbeq : (f == x) = false := by simp [hx]
      simp [List.lookup, hbeq, ih, hx]

/-- Lookup distributes over append, preferring the left list. -/
lemma lookup_append (l₁ l₂ : List (String × PyValue)) (f : String) :
    (l₁ ++ l₂).lookup f =
      (match l₁.lookup f with
       | some v => some v
       | Option.none => l₂.lookup f) := by
  induction l₁ with
  | nil => simp [List.lookup]
  | cons p t ih =>
    obtain ⟨k, w⟩ := p
    cases hbeq : f == k with
    | true => simp [List.lookup, hbeq]
    | false => simp [List.lookup, hbeq, ih]

/-- Replacing a present key's value in an association list makes its
lookup yield the new value. -/
lemma lookup_replace_self (l : List (String × PyValue)) (f : String)
    (v : PyValue) (h : (l.lookup f).isSome = true) :
    (l.map fun p => if p.1 = f then (f, v) else p).lookup f = some v := by
  induction l with
  | nil => simp [List.lookup] at h
  | cons p t ih =>
    obtain ⟨k, w⟩ := p
    by_cases hk : k = f
    · subst hk
      simp only [List.map_cons]
      rw [if_pos trivial]
      simp [List.lookup]
    · have hbeq : (f == k) = false := by simp [Ne.symm hk]
      simp only [List.lookup, hbeq] at h
      simp only [List.map_cons, if_neg hk]
      simp [List.lookup, hbeq, ih h]

/-- Replacing one key's value leaves every other key's lookup
unchanged. -/
lemma lookup_replace_other (l : List (String × PyValue)) (f g : String)
    (v : PyValue) (hg : g ≠ f) :
    (l.map fun p => if p.1 = f then (f, v) else p).lookup g = l.lookup g := by
  induction l with
  | nil => rfl
  | cons p t ih =>
    obtain ⟨k, w⟩ := p
    by_cases hk : k = f
    · subst hk
      have hbeq : (g == k) = false := by simp [hg]
      simp only [List.map_cons]
      rw [if_pos trivial]
      simp [List.lookup, hbeq, ih]
    · simp only [List.map_cons, if_neg hk]
      cases hbeq : g == k with
      | true => simp [List.lookup, hbeq]
      | false => simp [List.lookup, hbeq, ih]

/-- `setattr` never touches the primary key. -/
lemma setattr_id (e : Entity) (f : String) (v : PyValue) :
    (setattrEntity e f v).id = e.id := by
  rw [setattrEntity]
  split <;> rfl

/-- After `setattr(model, f, v)` the attribute `f` reads back `v`. -/
lemma setattr_lookup_self (e : Entity) (f : String) (v : PyValue) :
    (setattrEntity e f v).attrs.lookup f = some v := by
  rw [setattrEntity]
  by_cases hs : (e.attrs.lookup f).isSome = true
  · rw [if_pos hs]
    exact lookup_replace_self e.attrs f v hs
  · rw [if_neg hs]
    have hnone : e.attrs.lookup f = Option.none := by
      cases hlk : e.attrs.lookup f with
      | none => rfl
      | some w => rw [hlk] at hs; simp at hs
    show (e.attrs ++ [(f, v)]).lookup f = some v
    rw [lookup_append, hnone]
    simp [List.lookup]

/-- After `setattr(model, f, v)` every attribute other than `f` reads
back its previous value. -/
lemma setattr_lookup_other (e : Entity) (f g : String) (v : PyValue)
    (hg : g ≠ f) :
    (setattrEntity e f v).attrs.lookup g = e.attrs.lookup g := by
  rw [setattrEntity]
  by_cases hs : (e.attrs.lookup f).isSome = true
  · rw [if_pos hs]
    exact lookup_replace_other e.attrs f g v hg
  · rw [if_neg hs]
    show (e.attrs ++ [(f, v)]).lookup g = e.attrs.lookup g
    rw [lookup_append]
    have hbeq : (g == f) = false := by simp [hg]
    cases hlk : e.attrs.lookup g with
    | none => simp [List.lookup, hbeq]
    | some w => simp

/-- Applying a list of attribute assignments never touches the primary
key. -/
lemma foldl_setattr_id (attrs : List (String × PyValue)) :
    ∀ e : Entity,
      (attrs.foldl (fun m p => setattrEntity m p.1 p.2) e).id = e.id := by
  induction attrs with
  | nil => intro e; rfl
  | cons p t ih =>
    intro e
    rw [List.foldl_cons, ih, setattr_id]

/-- Applying a list of attribute assignments leaves attributes outside
its keys unchanged. -/
lemma foldl_setattr_not_mem (attrs : List (String × PyValue)) :
    ∀ (e : Entity) (f : String), f ∉ attrs.map Prod.fst →
      (attrs.foldl (fun m p => setattrEntity m p.1 p.2) e).attrs.lookup f =
        e.attrs.lookup f := by
  induction attrs with
  | nil => intro e f _; rfl
  | cons p t ih =>
    intro e f hf
    simp only [List.map_cons, List.mem_cons] at hf
    push_neg at hf
    rw [List.foldl_cons, ih _ f hf.2, setattr_lookup_other _ _ _ _ hf.1]

/-- Applying a list of attribute assignments with distinct keys makes
every assigned attribute read back its assigned value. -/
lemma foldl_setattr_mem (attrs : List (String × PyValue)) :
    ∀ (e : Entity) (f : String) (v : PyValue),
      (attrs.map Prod.fst).Nodup → (f, v) ∈ attrs →
      (attrs.foldl (fun m p => setattrEntity m p.1 p.2) e).attrs.lookup f =
        some v := by
  induction attrs with
  | nil => intro e f v _ hmem; simp at hmem
  | cons p t ih =>
    intro e f v hnd hmem
    obtain ⟨k, w⟩ := p
    simp only [List.map_cons, List.nodup_cons] at hnd
    rw [List.foldl_cons]
    rcases List.mem_cons.mp hmem with heq | hmem2
    · obtain ⟨rfl, rfl⟩ := Prod.mk.injEq f v k w ▸ heq
      rw [foldl_setattr_not_mem t _ f hnd.1]
      exact setattr_lookup_self e f v
    · exact ih _ f v hnd.2 hmem2

/-- A falsy `join_` argument leaves the query untouched and raises no
error, whatever its type. -/
lemma optional_join_falsy (reg : JoinRegistry) (q : Query) (j : JoinArg)
    (hfalsy : j.falsy = true) : _optional_join reg q j = .ok q := by
  have hv : validJoin reg j = true := by simp [validJoin, hfalsy]
  rw [optional_join_valid reg q j hv]
  have hjn : joinNames j = [] := by
    cases j with
    | none => rfl
    | set names =>
      have hnil : names = [] := List.isEmpty_iff.mp hfalsy
      simp [joinNames, hnil]
    | str s => rfl
    | list names => rfl
  rw [hjn, List.append_nil]

/-- Folding a name set containing an unregistered name over
`_add_join_to_query` fails with Unsupported-Relationship. -/
lemma foldlM_add_join_err (reg : JoinRegistry) (name : String)
    (hmiss : reg.contains name = false) :
    ∀ names : List String, name ∈ names →
      ∀ q : Query, names.foldlM (_add_join_to_query reg)  q =
        .error .unsupportedRelationship := by
  intro names
  induction names with
  | nil => intro hmem; simp at hmem
  | cons n t ih =>
    intro hmem q
    by_cases hn : reg.contains n = true
    · have hnm : n ∈ reg := by simpa using hn
      have hstep : _add_join_to_query reg q n =
          .ok { q with joins := q.joins ++ [n] } := by
        simp [_add_join_to_query, hnm]
      rw [List.foldlM_cons, hstep]
      have hmem2 : name ∈ t := by
        rcases List.mem_cons.mp hmem with rfl | h2
        · rw [hmiss] at hn
          simp at hn
        · exact h2
      show t.foldlM (_add_join_to_query reg) { q with joins := q.joins ++ [n] } =
        Except.error CrudError.unsupportedRelationship
      exact ih hmem2 _
    · have hstep : _add_join_to_query reg q n =
          .error .unsupportedRelationship := by
        rw [_add_join_to_query, if_neg hn]
      rw [List.foldlM_cons, hstep]
      rfl

/-- C1: for every call `get_by(field, value, relationships,
unique=True)` with a well-formed relationship argument, the result is
at most one record: on zero filter matches the call returns `None`
without erroring, and it never returns more than one entity even when
the filter matches multiple result rows (including join fan-out from
an eagerly loaded one-to-many relationship) — on two or more rows
`one_or_none` raises `MultipleResultsFound` rather than ever handing
back more than one entity. -/
theorem get_by_unique_at_most_one (reg : JoinRegistry) (db : GenericDB)
    (field : String) (value : PyValue) (j : JoinArg)
    (h : validJoin reg j = true) :
    (db.rows.filter (fun e => pyGetattr e field == value) = [] →
      get_by reg db field value j true = .ok (.one Option.none))
    ∧ (returnedEntities (get_by reg db field value j true)).length ≤ 1 := by
  constructor
  · intro hempty
    have hempty2 : db.rows.filter
        (matchesFilter (some (field, value))) = [] := hempty
    rw [get_by_unique_eq reg db field value j h,
      executeRows_filter_empty db _ hempty2]
    rfl
  · rw [get_by_unique_eq reg db field value j h]
    cases hrows : executeRows db
        { filterField := some (field, value), joins := joinNames j } with
    | nil => simp [_one_or_none, returnedEntities]
    | cons x xs =>
      cases xs with
      | nil => simp [_one_or_none, returnedEntities]
      | cons y t => simp [_one_or_none, returnedEntities]

/-- Witness for C1 at a store whose one matching row fans out to three
result rows under the eager load. -/
theorem get_by_unique_at_most_one_witness :
    (dbFan.rows.filter
        (fun e => pyGetattr e "status" == PyValue.vStr "created") = [] →
      get_by regOrder dbFan "status" (PyValue.vStr "created")
        (JoinArg.set ["order_items"]) true = .ok (.one Option.none))
    ∧ (returnedEntities (get_by regOrder dbFan "status"
        (PyValue.vStr "created") (JoinArg.set ["order_items"]) true)).length
        ≤ 1 :=
  get_by_unique_at_most_one regOrder dbFan "status" (PyValue.vStr "created")
    (JoinArg.set ["order_items"]) (by decide)

/-- C8: for every call `get_by(field, value, relationships,
unique=False)` with a non-empty set of registered relationship names,
the returned match set is deduplicated by identity — the result list
never contains the same parent entity twice, even when the one-to-many
eager load fans result rows out. -/
theorem get_by_join_no_duplicates (reg : JoinRegistry) (db : GenericDB)
    (field : String) (value : PyValue) (names : List String)
    (_hne : names ≠ [])
    (hreg : (names.all fun n => reg.contains n) = true) :
    isOkMany (get_by reg db field value (.set names) false) = true
    ∧ (returnedEntities (get_by reg db field value (.set names) false)).Nodup := by
  have hv : validJoin reg (.set names) = true := by
    have hall : ∀ x ∈ names, x ∈ reg := by simpa using hreg
    simp only [validJoin, Bool.or_eq_true]
    simp
    exact Or.inr hall
  rw [get_by_set_eq reg db field value names hv]
  exact ⟨rfl, all_unique_nodup _⟩

/-- Witness for C8: the fan-out store returns the parent exactly once
despite three result rows. -/
theorem get_by_join_no_duplicates_witness :
    isOkMany (get_by regOrder dbFan "status" (PyValue.vStr "created")
      (JoinArg.set ["order_items"]) false) = true
    ∧ (returnedEntities (get_by regOrder dbFan "status"
        (PyValue.vStr "created") (JoinArg.set ["order_items"]) false)).Nodup :=
  get_by_join_no_duplicates regOrder dbFan "status" (PyValue.vStr "created")
    ["order_items"] (by decide) (by decide)

/-- C4 counterexample: `get_by` called with the relationship argument
`""` — supplied, a single (empty) string, not a set of strings —
succeeds instead of failing with an Invalid-Input condition, because
the falsiness test of `_optional_join` runs before its `isinstance`
check.  This refutes the claim as stated for falsy non-set values. -/
theorem get_by_empty_string_join_accepted :
    get_by [] dbEmpty "id" (PyValue.vUuid 1) (JoinArg.str "") false
      = .ok (.many []) := rfl

/-- C4 amended: a supplied relationship argument that is truthy
(non-empty) and not a set fails with Invalid-Input rather than being
iterated; falsy non-set values (empty string, empty list) are instead
silently treated as "no relationships". -/
theorem get_by_truthy_non_set_join_rejected (reg : JoinRegistry)
    (db : GenericDB) (field : String) (value : PyValue) (j : JoinArg)
    (unique : Bool) (htruthy : j.falsy = false) (hset : j.isSet = false) :
    get_by reg db field value j unique = .error .invalidInput := by
  have hoj : _optional_join reg selectModel j = .error .invalidInput := by
    cases j with
    | none => simp [JoinArg.falsy] at htruthy
    | set names => simp [JoinArg.isSet] at hset
    | str s =>
      have hs : s.isEmpty = false := by simpa [JoinArg.falsy] using htruthy
      simp [_optional_join, JoinArg.falsy, hs]
    | list names =>
      have hs : names.isEmpty = false := by simpa [JoinArg.falsy] using htruthy
      simp [_optional_join, JoinArg.falsy, hs]
  rw [get_by, _query, hoj]

/-- Witness for the amended C4 on the single string of the spec's
example. -/
theorem get_by_truthy_non_set_join_rejected_witness :
    get_by [] dbEmpty "id" (PyValue.vUuid 1) (JoinArg.str "not-a-set") false
      = .error .invalidInput :=
  get_by_truthy_non_set_join_rejected [] dbEmpty "id" (PyValue.vUuid 1)
    (JoinArg.str "not-a-set") false (by decide) (by decide)

/-- C5: a relationship name with no registered join method for the
current entity kind makes query building fail with the
Unsupported-Relationship condition, both at `_add_join_to_query`
itself and as surfaced through `get_by`. -/
theorem unregistered_join_name_fails (reg : JoinRegistry) (q : Query)
    (db : GenericDB) (field : String) (value : PyValue)
    (names : List String) (name : String) (unique : Bool)
    (hmem : name ∈ names) (hmiss : reg.contains name = false) :
    _add_join_to_query reg q name = .error .unsupportedRelationship
    ∧ get_by reg db field value (.set names) unique
        = .error .unsupportedRelationship := by
  have hne : names.isEmpty = false := by
    cases names with
    | nil => simp at hmem
    | cons a b => rfl
  have hnm : ¬ (reg.contains name = true) := by
    rw [hmiss]
    simp
  have hoj : _optional_join reg selectModel (.set names)
      = .error .unsupportedRelationship := by
    have hf : (JoinArg.set names).falsy = false := hne
    rw [show _optional_join reg selectModel (.set names)
        = if (JoinArg.set names).falsy then .ok selectModel
          else names.foldlM (_add_join_to_query reg) selectModel from rfl]
    rw [hf]
    show names.foldlM (_add_join_to_query reg) selectModel = _
    exact foldlM_add_join_err reg name hmiss names hmem selectModel
  constructor
  · rw [_add_join_to_query, if_neg hnm]
  · rw [get_by, _query, hoj]

/-- Witness for C5 at the name `"unknown"` against the order
repository's registry. -/
theorem unregistered_join_name_fails_witness :
    _add_join_to_query regOrder selectModel "unknown"
        = .error .unsupportedRelationship
    ∧ get_by regOrder dbFan "status" (PyValue.vStr "created")
        (JoinArg.set ["unknown"]) true = .error .unsupportedRelationship :=
  unregistered_join_name_fails regOrder selectModel dbFan "status"
    (PyValue.vStr "created") ["unknown"] "unknown" true (by decide) (by decide)

/-- C10: a falsy relationship argument (`None`, the empty set, or a
falsy non-set value such as the empty string) applies no join and
raises no error; and with any falsy argument other than `None` —
the empty set in particular — results still flow through the
deduplicating `_all_unique` execution path, unlike `None`, which takes
the plain `_all` path. -/
theorem falsy_join_arg_silently_ignored (reg : JoinRegistry) (q : Query)
    (db : GenericDB) (field : String) (value : PyValue) (j : JoinArg)
    (hfalsy : j.falsy = true) :
    _optional_join reg q j = .ok q
    ∧ exceptOk (get_by reg db field value j false) = true
    ∧ get_by reg db field value (JoinArg.set []) false
        = .ok (.many (_all_unique (db.rows.filter
            (matchesFilter (some (field, value))))))
    ∧ get_by reg db field value JoinArg.none false
        = .ok (.many (db.rows.filter (matchesFilter (some (field, value))))) := by
  refine ⟨?_, ?_, ?_, ?_⟩
  · exact optional_join_falsy reg q j hfalsy
  · by_cases hn : j = JoinArg.none
    · subst hn
      rw [get_by_none_eq]
      rfl
    · rw [get_by_falsy_notnone_eq reg db field value j hfalsy hn]
      rfl
  · exact get_by_falsy_notnone_eq reg db field value (.set []) rfl (by decide)
  · exact get_by_none_eq reg db field value

/-- C6: `get_by_id(id, relationships)` behaves as
`get_by("id", id, relationships, unique=True)` with absence converted
to an error: when no row carries the id it fails with Not-Found
instead of returning an empty or null value, a successful unique
lookup passes through unchanged, and on a freshly created entity's id
it returns that entity. -/
theorem get_by_id_not_found_or_fresh (reg : JoinRegistry) (db : GenericDB)
    (idv : Nat) (j : JoinArg) (x : Entity) (k : EntityKind)
    (payload : Schema) (freshId : Nat)
    (hv : validJoin reg j = true)
    (hfresh : db.rows.filter
      (fun e => pyGetattr e "id" == PyValue.vUuid freshId) = []) :
    (db.rows.filter (fun e => pyGetattr e "id" == PyValue.vUuid idv) = [] →
      get_by_id reg db idv j = .error .notFound)
    ∧ (get_by reg db "id" (.vUuid idv) j true = .ok (.one (some x)) →
        get_by_id reg db idv j = .ok (.one (some x)))
    ∧ get_by_id reg (create k db payload freshId).2 freshId JoinArg.none
        = .ok (.one (some (create k db payload freshId).1)) := by
  refine ⟨?_, ?_, ?_⟩
  · intro hempty
    have hempty2 : db.rows.filter
        (matchesFilter (some ("id", PyValue.vUuid idv))) = [] := hempty
    have hgb : get_by reg db "id" (.vUuid idv) j true
        = .ok (.one Option.none) := by
      rw [get_by_unique_eq reg db "id" (.vUuid idv) j hv,
        executeRows_filter_empty db _ hempty2]
      rfl
    rw [get_by_id, hgb]
    rfl
  · intro hx
    rw [get_by_id, hx]
    rfl
  · have hm : (pyGetattr (create k db payload freshId).1 "id"
        == PyValue.vUuid freshId) = true := by
      show (PyValue.vUuid freshId == PyValue.vUuid freshId) = true
      simp
    have hfresh2 : db.rows.filter
        (matchesFilter (some ("id", PyValue.vUuid freshId))) = [] := hfresh
    have hfilter : (create k db payload freshId).2.rows.filter
          (matchesFilter (some ("id", PyValue.vUuid freshId)))
        = [(create k db payload freshId).1] := by
      show (db.rows ++ [(create k db payload freshId).1]).filter
          (matchesFilter (some ("id", PyValue.vUuid freshId))) = _
      rw [List.filter_append, hfresh2]
      have hm2 : matchesFilter (some ("id", PyValue.vUuid freshId))
          (create k db payload freshId).1 = true := hm
      simp [hm2]
    have hgb : get_by reg (create k db payload freshId).2 "id"
        (.vUuid freshId) JoinArg.none true
        = .ok (.one (some (create k db payload freshId).1)) := by
      rw [get_by_unique_eq reg (create k db payload freshId).2 "id"
          (.vUuid freshId) JoinArg.none rfl,
        executeRows_no_join _ _ rfl, hfilter]
      rfl
    rw [get_by_id, hgb]
    rfl

/-- Witness for C6 at the empty store and a fresh creation with id
42. -/
theorem get_by_id_not_found_or_fresh_witness :
    (dbEmpty.rows.filter (fun e => pyGetattr e "id" == PyValue.vUuid 1) = [] →
      get_by_id [] dbEmpty 1 JoinArg.none = .error .notFound)
    ∧ (get_by [] dbEmpty "id" (.vUuid 1) JoinArg.none true
        = .ok (.one (some entParent)) →
        get_by_id [] dbEmpty 1 JoinArg.none = .ok (.one (some entParent)))
    ∧ get_by_id [] (create prodKind dbEmpty prodPayload 42).2 42 JoinArg.none
        = .ok (.one (some (create prodKind dbEmpty prodPayload 42).1)) :=
  get_by_id_not_found_or_fresh [] dbEmpty 1 JoinArg.none entParent prodKind
    prodPayload 42 (by decide) (by decide)

/-- C3: `update(existing, patch)` assigns exactly the fields
explicitly set in the patch onto the existing entity — every patched
field reads back its patched value, every field omitted from the patch
(and the id) keeps its pre-update value bit for bit — and returns the
updated entity (a merge, not a replace). -/
theorem update_is_partial_merge (model : Entity) (patch : Schema)
    (f g : String) (v : PyValue)
    (hnd : (patch.setFields.map Prod.fst).Nodup)
    (hid : "id" ∉ patch.setFields.map Prod.fst) :
    ((f, v) ∈ patch.setFields → pyGetattr (update model patch) f = v)
    ∧ (g ∉ patch.setFields.map Prod.fst →
        pyGetattr (update model patch) g = pyGetattr model g)
    ∧ (update model patch).id = model.id := by
  refine ⟨?_, ?_, foldl_setattr_id patch.setFields model⟩
  · intro hmem
    have hf : f ∈ patch.setFields.map Prod.fst :=
      List.mem_map_of_mem Prod.fst hmem
    have hfid : ¬ (f = "id") := fun heq => hid (heq ▸ hf)
    have hlk : (update model patch).attrs.lookup f = some v :=
      foldl_setattr_mem patch.setFields model f v hnd hmem
    rw [pyGetattr, if_neg hfid, hlk]
  · intro hg
    by_cases hgid : g = "id"
    · subst hgid
      rw [pyGetattr, if_pos rfl]
      rw [show (update model patch).id = model.id from
        foldl_setattr_id patch.setFields model]
      rw [pyGetattr, if_pos rfl]
    · have hlk : (update model patch).attrs.lookup g = model.attrs.lookup g :=
        foldl_setattr_not_mem patch.setFields model g hg
      rw [pyGetattr, if_neg hgid, hlk, pyGetattr, if_neg hgid]

/-- Witness for C3: patching only `status` updates it and preserves
`creation_date` and the id. -/
theorem update_is_partial_merge_witness :
    (("status", PyValue.vStr "shipped") ∈ patchStatus.setFields →
      pyGetattr (update entOrder patchStatus) "status" = PyValue.vStr "shipped")
    ∧ ("creation_date" ∉ patchStatus.setFields.map Prod.fst →
        pyGetattr (update entOrder patchStatus) "creation_date"
          = pyGetattr entOrder "creation_date")
    ∧ (update entOrder patchStatus).id = entOrder.id :=
  update_is_partial_merge entOrder patchStatus "status" "creation_date"
    (PyValue.vStr "shipped") (by decide) (by decide)

/-- C7: `create(payload)` returns an entity whose generated id is
populated (non-empty), whose explicitly-set payload fields read back
exactly their payload values, whose declared fields absent from the
payload hold the entity kind's defaults — a payload with no explicit
fields yields an all-defaults entity — and the committed store gains
exactly that row. -/
theorem create_applies_payload_over_defaults (k : EntityKind)
    (db : GenericDB) (payload : Schema) (freshId : Nat) (f g : String)
    (v : PyValue)
    (hnd : (payload.setFields.map Prod.fst).Nodup)
    (hsub : ∀ x ∈ payload.setFields.map Prod.fst, x ∈ k.fieldNames) :
    (create k db payload freshId).1.id = some freshId
    ∧ ((f, v) ∈ payload.setFields →
        (create k db payload freshId).1.attrs.lookup f = some v)
    ∧ (g ∈ k.fieldNames → g ∉ payload.setFields.map Prod.fst →
        (create k db payload freshId).1.attrs.lookup g = some (k.defaults g))
    ∧ (payload.setFields = [] →
        (create k db payload freshId).1.attrs
          = k.fieldNames.map fun x => (x, k.defaults x))
    ∧ (create k db payload freshId).2.rows
        = db.rows ++ [(create k db payload freshId).1] := by
  refine ⟨rfl, ?_, ?_, ?_, rfl⟩
  · intro hmem
    have hf : f ∈ k.fieldNames := hsub f (List.mem_map_of_mem Prod.fst hmem)
    show (k.fieldNames.map fun x =>
        (x, match payload.setFields.lookup x with
            | some v => v
            | Option.none => k.defaults x)).lookup f = some v
    rw [lookup_map_key, if_pos hf,
      lookup_eq_some_of_mem payload.setFields f v hnd hmem]
  · intro hgk hgp
    show (k.fieldNames.map fun x =>
        (x, match payload.setFields.lookup x with
            | some v => v
            | Option.none => k.defaults x)).lookup g = some (k.defaults g)
    rw [lookup_map_key, if_pos hgk,
      lookup_eq_none_of_not_mem payload.setFields g hgp]
  · intro hempty
    show (k.fieldNames.map fun x =>
        (x, match payload.setFields.lookup x with
            | some v => v
            | Option.none => k.defaults x))
      = k.fieldNames.map fun x => (x, k.defaults x)
    rw [hempty]
    rfl

/-- Witness for C7 at the product kind: the payload's name is applied,
the omitted description keeps its default. -/
theorem create_applies_payload_over_defaults_witness :
    (create prodKind dbEmpty prodPayload 42).1.id = some 42
    ∧ (("name", PyValue.vStr "Widget") ∈ prodPayload.setFields →
        (create prodKind dbEmpty prodPayload 42).1.attrs.lookup "name"
          = some (PyValue.vStr "Widget"))
    ∧ ("description" ∈ prodKind.fieldNames →
        "description" ∉ prodPayload.setFields.map Prod.fst →
        (create prodKind dbEmpty prodPayload 42).1.attrs.lookup "description"
          = some (prodKind.defaults "description"))
    ∧ (prodPayload.setFields = [] →
        (create prodKind dbEmpty prodPayload 42).1.attrs
          = prodKind.fieldNames.map fun x => (x, prodKind.defaults x))
    ∧ (create prodKind dbEmpty prodPayload 42).2.rows
        = dbEmpty.rows ++ [(create prodKind dbEmpty prodPayload 42).1] :=
  create_applies_payload_over_defaults prodKind dbEmpty prodPayload 42
    "name" "description" (PyValue.vStr "Widget") (by decide) (by decide)

/-- Witness for C10 at the falsy non-set argument `""`. -/
theorem falsy_join_arg_silently_ignored_witness :
    _optional_join regOrder selectModel (JoinArg.str "") = .ok selectModel
    ∧ exceptOk (get_by regOrder dbFan "status" (PyValue.vStr "created")
        (JoinArg.str "") false) = true
    ∧ get_by regOrder dbFan "status" (PyValue.vStr "created")
        (JoinArg.set []) false
        = .ok (.many (_all_unique (dbFan.rows.filter
            (matchesFilter (some ("status", PyValue.vStr "created"))))))
    ∧ get_by regOrder dbFan "status" (PyValue.vStr "created") JoinArg.none false
        = .ok (.many (dbFan.rows.filter
            (matchesFilter (some ("status", PyValue.vStr "created"))))) :=
  falsy_join_arg_silently_ignored regOrder selectModel dbFan "status"
    (PyValue.vStr "created") (JoinArg.str "") (by decide)

/-- Reading the `order_id` column of an order item through the
generic-entity view. -/
lemma toEntity_order_id (it : OrderItem) :
    pyGetattr (OrderItem.toEntity it) "order_id" = optUuid it.order_id := rfl

/-- C2: deleting an Order removes all of its owned OrderItems in the
same atomic transition — a subsequent `get_by("order_id", order.id)`
on the OrderItem repository returns an empty result — while the
product table is untouched, so every Product referenced by those items
stays retrievable by id; for the other entity kinds (Product,
OrderItem) delete removes only the targeted record. -/
theorem delete_order_cascades_spares_products (db : ShopDB) (o : Order)
    (p : Product) (it : OrderItem) (pid : Nat) :
    get_by [] (orderItemDB (delete_order db o)) "order_id"
        (PyValue.vUuid o.id) JoinArg.none false = .ok (.many [])
    ∧ (delete_order db o).products = db.products
    ∧ getProductById (delete_order db o) pid = getProductById db pid
    ∧ (delete_product db p).orders = db.orders
    ∧ (delete_product db p).order_items = db.order_items
    ∧ (delete_product db p).products
        = db.products.filter (fun x => x.id != p.id)
    ∧ (delete_order_item db it).orders = db.orders
    ∧ (delete_order_item db it).products = db.products
    ∧ (delete_order_item db it).order_items
        = db.order_items.filter (fun x => x.id != it.id) := by
  refine ⟨?_, rfl, rfl, rfl, rfl, rfl, rfl, rfl, rfl⟩
  rw [get_by_none_eq]
  have hnil : (orderItemDB (delete_order db o)).rows.filter
      (matchesFilter (some ("order_id", PyValue.vUuid o.id))) = [] := by
    rw [List.filter_eq_nil_iff]
    intro e he
    have he2 : e ∈ (db.order_items.filter
        fun x => x.order_id != some o.id).map OrderItem.toEntity := he
    obtain ⟨it2, hit2, rfl⟩ := List.mem_map.mp he2
    have hpred := (List.mem_filter.mp hit2).2
    have hne : it2.order_id ≠ some o.id := by simpa using hpred
    show ¬ (matchesFilter (some ("order_id", PyValue.vUuid o.id))
        (OrderItem.toEntity it2) = true)
    simp only [matchesFilter, toEntity_order_id]
    cases h2 : it2.order_id with
    | none => simp [optUuid]
    | some u =>
      have hu : u ≠ o.id := fun huo => hne (by rw [h2, huo])
      simp [optUuid, hu]
  rw [hnil]

/-- C9 counterexample: an OrderItem whose two references are both NULL
is accepted and persisted — the declared foreign-key columns are
`UUID | None`, so a reference may be absent, refuting the claim that
every persisted OrderItem carries both references. -/
theorem order_item_with_null_refs_persists :
    orderItemsAfter (insertOrderItem emptyShopDB nullOrderItem)
      = [nullOrderItem]
    ∧ nullOrderItem.order_id = Option.none
    ∧ nullOrderItem.product_id = Option.none :=
  ⟨rfl, rfl, rfl⟩

/-- C9 amended: the OrderItem references are optional (the columns are
nullable); whenever an OrderItem is persisted, a present (non-NULL)
`order_id` must reference an existing Order and a present `product_id`
must reference an existing Product, and the store gains exactly that
row. -/
theorem insert_order_item_fk_checked (db : ShopDB) (it : OrderItem)
    (oid pid : Nat) (h : insertOk db it = true) :
    (it.order_id = some oid → (db.orders.any fun o => o.id == oid) = true)
    ∧ (it.product_id = some pid →
        (db.products.any fun pr => pr.id == pid) = true)
    ∧ orderItemsAfter (insertOrderItem db it) = db.order_items ++ [it] := by
  by_cases hfk : fkOk db it = true
  · have h1 := hfk
    rw [fkOk, Bool.and_eq_true] at h1
    refine ⟨?_, ?_, ?_⟩
    · intro ho
      rw [ho] at h1
      exact h1.1
    · intro hp
      rw [hp] at h1
      exact h1.2
    · rw [insertOrderItem, if_pos hfk]
      rfl
  · exfalso
    have hko : insertOk db it = false := by
      rw [insertOk, insertOrderItem, if_neg hfk]
    rw [hko] at h
    simp at h

/-- Witness for the amended C9: the item referencing order 5 is
accepted against the store holding that order. -/
theorem insert_order_item_fk_checked_witness :
    (itemForOrder5.order_id = some 5 →
      (oneOrderShopDB.orders.any fun o => o.id == 5) = true)
    ∧ (itemForOrder5.product_id = some 0 →
        (oneOrderShopDB.products.any fun pr => pr.id == 0) = true)
    ∧ orderItemsAfter (insertOrderItem oneOrderShopDB itemForOrder5)
        = oneOrderShopDB.order_items ++ [itemForOrder5] :=
  insert_order_item_fk_checked oneOrderShopDB itemForOrder5 5 0 (by decide)

end ShopAPI
